import Mathlib

/-!
Verification of the frame geometry normalization and temporal padding
pipeline of `infer_flashvsr_v1.1_full_modified.py`.

The Python functions are embedded shallowly:
* machine floats are idealized as exact rationals (`ℚ`); Python's `round`
  (banker's rounding, half-to-even) is `pythonRound`;
* Python's floor division `//` on integers is `Int.fdiv`;
* fallible code (`raise`) returns `Option`/`Except`;
* PIL images are records of width, height and a pixel function; PIL's
  `crop` never fails and pads out-of-bounds area with the fill value 0,
  exactly as the library does.
-/

namespace FlashVSR

/-- Model of Python 3's built-in `round` on an exact rational: round
half to even (banker's rounding).  The source applies `round` to a float
product; float arithmetic is idealized as exact rational arithmetic. -/
def pythonRound (q : ℚ) : ℤ :=
  let f : ℤ := q.num.fdiv (q.den : ℤ)
  let frac : ℚ := q - (f : ℚ)
  if frac < 1/2 then f
  else if 1/2 < frac then f + 1
  else if f % 2 = 0 then f else f + 1

/-- Embedding of `largest_8n1_leq` (line 30): the largest value of the
form 8n+1 that does not exceed `n`, or 0 when `n < 1`. -/
def largest_8n1_leq (n : ℤ) : ℤ :=
  if n < 1 then 0 else ((n - 1).fdiv 8) * 8 + 1

/-- Embedding of `compute_scaled_and_target_dims` (lines 64-92).
Returns `none` where the Python raises `ValueError` on a non-positive
original size; otherwise `some (sW, sH, tW, tH, scale_eff)`. -/
def compute_scaled_and_target_dims (w0 h0 : ℤ) (scale : ℚ)
    (max_w max_h mult : ℤ) : Option (ℤ × ℤ × ℤ × ℤ × ℚ) :=
  if w0 ≤ 0 ∨ h0 ≤ 0 then none
  else
    let scale_eff : ℚ :=
      max 1 (min scale (min ((max_w : ℚ) / (w0 : ℚ)) ((max_h : ℚ) / (h0 : ℚ))))
    let sW := pythonRound ((w0 : ℚ) * scale_eff)
    let sH := pythonRound ((h0 : ℚ) * scale_eff)
    let floor_w := max mult ((sW.fdiv mult) * mult)
    let floor_h := max mult ((sH.fdiv mult) * mult)
    let ceil_w := max mult (((sW + mult - 1).fdiv mult) * mult)
    let ceil_h := max mult (((sH + mult - 1).fdiv mult) * mult)
    if ceil_w ≤ max_w ∧ ceil_h ≤ max_h then
      some (sW, sH, ceil_w, ceil_h, scale_eff)
    else
      some (sW, sH, min floor_w max_w, min floor_h max_h, scale_eff)

/-- Embedding of the temporal padding logic shared by both branches of
`prepare_input_tensor` (lines 117-121 and 176-181): append the last
source index 4 times, compute the largest 8n+1 length, fail when it is
0 (`RuntimeError: Not enough frames after padding`), else truncate.
Python's `list(range(total))` is empty for `total ≤ 0`, hence
`total.toNat`.  Returns the frame count `F` together with the truncated
index list. -/
def framePadderPlan (total : ℤ) : Except String (ℤ × List ℤ) :=
  let idx := (List.range total.toNat).map Int.ofNat ++
    List.replicate 4 (total - 1)
  let F := largest_8n1_leq (idx.length : ℤ)
  if F = 0 then Except.error "Not enough frames after padding"
  else Except.ok (F, idx.take F.toNat)

/-- Model of a PIL image: a width, a height and a pixel function
returning an RGB triple.  Only the geometry of `resize` and `crop`
matters to the claims; the bicubic interpolation kernel is abstracted
by a coordinate-scaling sample. -/
structure PILImage where
  width : ℕ
  height : ℕ
  px : ℕ → ℕ → ℕ × ℕ × ℕ

/-- PIL `Image.resize((w, h))`: the result has exactly the requested
size; pixel content is sampled from the source image. -/
def PILImage.resize (img : PILImage) (w h : ℕ) : PILImage where
  width := w
  height := h
  px := fun x y => img.px (x * img.width / max w 1) (y * img.height / max h 1)

/-- PIL `Image.crop((l, t, r, b))`: the result has size
`(r - l, b - t)` unconditionally; area outside the source image is
padded with the fill value 0 — PIL's crop never raises on an
out-of-bounds box. -/
def PILImage.crop (img : PILImage) (l t r b : ℕ) : PILImage where
  width := r - l
  height := b - t
  px := fun x y =>
    if l + x < img.width ∧ t + y < img.height then img.px (l + x) (t + y)
    else (0, 0, 0)

/-- Embedding of `upscale_then_center_crop` (lines 94-99): resize to
`(sW, sH)`, then crop the box `(l, t, l + tW, t + tH)` with
`l = max(0, (sW - tW) // 2)` and `t = max(0, (sH - tH) // 2)`. -/
def upscale_then_center_crop (img : PILImage) (sW sH tW tH : ℕ) : PILImage :=
  let up := img.resize sW sH
  let l : ℕ := (max 0 (((sW : ℤ) - (tW : ℤ)).fdiv 2)).toNat
  let t : ℕ := (max 0 (((sH : ℤ) - (tH : ℤ)).fdiv 2)).toNat
  up.crop l t (l + tW) (t + tH)

/-- An fps metadata value as found in `meta.get('fps', 30)`: either a
numeric value (Python `int`/`float`, idealized as `ℚ`) or some
non-numeric value. -/
inductive MetaVal where
  | num (q : ℚ)
  | other
deriving DecidableEq

/-- Embedding of the fps extraction of the video branch (lines
143-144): `fps_val = meta.get('fps', 30)` and
`fps = int(round(fps_val)) if isinstance(fps_val, (int, float)) else 30`. -/
def extract_fps (metaFps : Option MetaVal) : ℤ :=
  let fps_val := metaFps.getD (MetaVal.num 30)
  match fps_val with
  | MetaVal.num q => pythonRound q
  | MetaVal.other => 30

/-- Embedding of the planning portion of the image-directory branch of
`prepare_input_tensor` (lines 102-131): fail when the directory holds
no images (`FileNotFoundError`), compute the scale plan with the
default bounds `max_w = 2560`, `max_h = 1440` and `multiple = 128`,
append the last path 4 times, truncate to the largest 8n+1 length, and
fix fps at 30.  Returns the scale-plan tuple, the selected path list,
the frame count `F` and the fps. -/
def prepare_input_tensor_dir (w0 h0 : ℤ) (scale : ℚ) (paths0 : List String) :
    Option ((ℤ × ℤ × ℤ × ℤ × ℚ) × List String × ℤ × ℤ) :=
  if hp : paths0 = [] then none
  else
    match compute_scaled_and_target_dims w0 h0 scale 2560 1440 128 with
    | none => none
    | some dims =>
      let paths := paths0 ++ List.replicate 4 (paths0.getLast hp)
      let F := largest_8n1_leq (paths.length : ℤ)
      if F = 0 then none
      else some (dims, paths.take F.toNat, F, 30)

/-- Embedding of the planning portion of the video branch of
`prepare_input_tensor` (lines 133-197): extract fps from the metadata,
fail when the counted total is non-positive (`RuntimeError: Cannot read
frames`), compute the scale plan with the same default bounds, and run
the temporal padding (lines 176-181, factored as `framePadderPlan`).
Returns the scale-plan tuple, the selected index list, the frame count
`F` and the fps. -/
def prepare_input_tensor_video (w0 h0 : ℤ) (scale : ℚ) (total : ℤ)
    (metaFps : Option MetaVal) :
    Option ((ℤ × ℤ × ℤ × ℤ × ℚ) × List ℤ × ℤ × ℤ) :=
  let fps := extract_fps metaFps
  if total ≤ 0 then none
  else
    match compute_scaled_and_target_dims w0 h0 scale 2560 1440 128 with
    | none => none
    | some dims =>
      match framePadderPlan total with
      | Except.error _ => none
      | Except.ok (F, idx) => some (dims, idx, F, fps)

/-- Concrete one-pixel image used for counterexamples and witnesses. -/
def onePixel : PILImage where
  width := 1
  height := 1
  px := fun _ _ => (7, 7, 7)

end FlashVSR

namespace FlashVSR

/-! Helper lemmas shared by the claim theorems. -/

/-- Both block-aligned candidates `max mult (q * mult)` are multiples of
the block size. -/
theorem align_dvd (mult s : ℤ) : mult ∣ max mult (s * mult) := by
  rcases max_choice mult (s * mult) with h | h <;> rw [h] <;>
    first
    | exact dvd_refl _
    | exact dvd_mul_left _ _

/-- Block-aligned candidates are positive when the block size is. -/
theorem align_pos {mult : ℤ} (hm : 0 < mult) (x : ℤ) : 0 < max mult x :=
  lt_of_lt_of_le hm (le_max_left _ _)

/-- Divisibility passes through a binary minimum. -/
theorem dvd_min_of_dvd {a b c : ℤ} (h1 : a ∣ b) (h2 : a ∣ c) : a ∣ min b c := by
  rcases min_choice b c with h | h <;> rw [h] <;> assumption

/-- On arguments ≥ 1 the helper computes `((n - 1) / 8) * 8 + 1` with
Euclidean division. -/
theorem largest_8n1_leq_eq {n : ℤ} (h : 1 ≤ n) :
    largest_8n1_leq n = ((n - 1) / 8) * 8 + 1 := by
  unfold largest_8n1_leq
  rw [if_neg (by omega), Int.fdiv_eq_ediv _ (by norm_num)]

/-- The helper never returns 0 on arguments ≥ 1. -/
theorem largest_8n1_leq_pos {n : ℤ} (h : 1 ≤ n) : 1 ≤ largest_8n1_leq n := by
  rw [largest_8n1_leq_eq h]
  omega

/-! Claim theorems. -/

/-- C1 (amended): for `w0 = 1920`, `h0 = 1080`, `scale = 4`,
`maxW = 2560`, `maxH = 1440`, `blockSize = 128` the planner returns
`effectiveScale = 4/3`, `scaledW = 2560`, `scaledH = 1440`,
`targetW = 2560` and `targetH = 1408`: since 1440 is not a multiple of
128 and rounding the height up to 1536 would exceed `maxH`, the height
falls back to the floor multiple 1408. -/
theorem planner_concrete_1920x1080 :
    compute_scaled_and_target_dims 1920 1080 4 2560 1440 128 =
      some (2560, 1440, 2560, 1408, 4/3) := by
  simp only [compute_scaled_and_target_dims, pythonRound]
  norm_num [min_def, max_def, Int.fdiv_eq_ediv]

/-- C1 (counterexample to the claim as stated): on the same inputs the
planner does not return `targetH = 1440`. -/
theorem planner_concrete_1920x1080_not_1440 :
    compute_scaled_and_target_dims 1920 1080 4 2560 1440 128 ≠
      some (2560, 1440, 2560, 1440, 4/3) := by
  simp only [compute_scaled_and_target_dims, pythonRound]
  norm_num [min_def, max_def, Int.fdiv_eq_ediv]

/-- C2 (amended): whenever the planner succeeds on positive source
dimensions, a positive block size and positive bounds that are
multiples of the block size, the returned target dimensions are
positive multiples of the block size and do not exceed the respective
bounds.  (Without the divisibility condition on the bounds the claim
fails: see the counterexample.) -/
theorem planner_target_positive_multiple_within_bounds
    (w0 h0 max_w max_h mult : ℤ) (scale : ℚ) (sW sH tW tH : ℤ) (se : ℚ)
    (hw : 0 < w0) (hh : 0 < h0) (hm : 0 < mult)
    (hmw : 0 < max_w) (hmh : 0 < max_h)
    (hdw : mult ∣ max_w) (hdh : mult ∣ max_h)
    (h : compute_scaled_and_target_dims w0 h0 scale max_w max_h mult =
      some (sW, sH, tW, tH, se)) :
    0 < tW ∧ mult ∣ tW ∧ tW ≤ max_w ∧ 0 < tH ∧ mult ∣ tH ∧ tH ≤ max_h := by
  simp only [compute_scaled_and_target_dims] at h
  split at h
  · simp at h
  · split at h
    · next hcond =>
      simp only [Option.some.injEq, Prod.mk.injEq] at h
      obtain ⟨-, -, htW, htH, -⟩ := h
      subst htW htH
      exact ⟨align_pos hm _, align_dvd _ _, hcond.1,
        align_pos hm _, align_dvd _ _, hcond.2⟩
    · simp only [Option.some.injEq, Prod.mk.injEq] at h
      obtain ⟨-, -, htW, htH, -⟩ := h
      subst htW htH
      exact ⟨lt_min (align_pos hm _) hmw,
        dvd_min_of_dvd (align_dvd _ _) hdw, min_le_right _ _,
        lt_min (align_pos hm _) hmh,
        dvd_min_of_dvd (align_dvd _ _) hdh, min_le_right _ _⟩

/-- C2 (witness): the amended theorem applied at a concrete input. -/
theorem planner_target_positive_multiple_within_bounds_witness :
    compute_scaled_and_target_dims 1 1 4 2560 1280 128 =
      some (4, 4, 128, 128, 4) ∧
    (0 < (128:ℤ) ∧ (128:ℤ) ∣ 128 ∧ (128:ℤ) ≤ 2560 ∧
     0 < (128:ℤ) ∧ (128:ℤ) ∣ 128 ∧ (128:ℤ) ≤ 1280) := by
  have hcomp : compute_scaled_and_target_dims 1 1 4 2560 1280 128 =
      some (4, 4, 128, 128, 4) := by
    simp only [compute_scaled_and_target_dims, pythonRound]
    norm_num [min_def, max_def, Int.fdiv_eq_ediv]
  exact ⟨hcomp, planner_target_positive_multiple_within_bounds
    1 1 2560 1280 128 4 4 4 128 128 4 (by norm_num) (by norm_num)
    (by norm_num) (by norm_num) (by norm_num)
    ⟨20, by norm_num⟩ ⟨10, by norm_num⟩ hcomp⟩

/-- C2 (counterexample to the claim as stated): with the default
configuration `scale = 4`, `maxW = 2560`, `maxH = 1440`,
`blockSize = 128` and source size 100×2000, the planner returns
`targetH = 1440`, which is not a multiple of 128. -/
theorem planner_target_not_multiple_counterexample :
    compute_scaled_and_target_dims 100 2000 4 2560 1440 128 =
      some (100, 2000, 128, 1440, 1) ∧ ¬ ((128:ℤ) ∣ 1440) := by
  constructor
  · simp only [compute_scaled_and_target_dims, pythonRound]
    norm_num [min_def, max_def, Int.fdiv_eq_ediv]
  · decide

/-- C3 (amended): for positive source dimensions the effective scale
returned by the planner is always ≥ 1, and it is ≤ the requested scale
whenever the requested scale is itself ≥ 1.  (A requested scale < 1 is
clamped up to 1, exceeding the request: see the counterexample.) -/
theorem planner_effective_scale_bounds
    (w0 h0 max_w max_h mult : ℤ) (scale : ℚ) (sW sH tW tH : ℤ) (se : ℚ)
    (hw : 0 < w0) (hh : 0 < h0) (hs : 1 ≤ scale)
    (h : compute_scaled_and_target_dims w0 h0 scale max_w max_h mult =
      some (sW, sH, tW, tH, se)) :
    1 ≤ se ∧ se ≤ scale := by
  simp only [compute_scaled_and_target_dims] at h
  split at h
  · simp at h
  · split at h <;>
    · simp only [Option.some.injEq, Prod.mk.injEq] at h
      obtain ⟨-, -, -, -, hse⟩ := h
      subst hse
      exact ⟨le_max_left _ _, max_le hs (le_trans (min_le_left _ _) le_rfl)⟩

/-- C3 (witness): the amended theorem applied at a concrete input. -/
theorem planner_effective_scale_bounds_witness :
    compute_scaled_and_target_dims 1 1 4 2560 1280 128 =
      some (4, 4, 128, 128, 4) ∧ (1 ≤ (4:ℚ) ∧ (4:ℚ) ≤ 4) := by
  have hcomp : compute_scaled_and_target_dims 1 1 4 2560 1280 128 =
      some (4, 4, 128, 128, 4) := by
    simp only [compute_scaled_and_target_dims, pythonRound]
    norm_num [min_def, max_def, Int.fdiv_eq_ediv]
  exact ⟨hcomp, planner_effective_scale_bounds 1 1 2560 1280 128 4 4 4 128 128 4
    (by norm_num) (by norm_num) (by norm_num) hcomp⟩

/-- C3 (counterexample to the claim as stated): with requested scale
1/2 the planner returns `effectiveScale = 1 > 1/2`, so the effective
scale is not always ≤ the requested scale. -/
theorem planner_effective_scale_exceeds_request :
    compute_scaled_and_target_dims 1 1 (1/2) 100 100 128 =
      some (1, 1, 100, 100, 1) ∧ ¬ ((1:ℚ) ≤ 1/2) := by
  constructor
  · simp only [compute_scaled_and_target_dims, pythonRound]
    norm_num [min_def, max_def, Int.fdiv_eq_ediv]
  · norm_num

/-- C4 (confirmed): for every `sourceLen ≥ 1` the padder returns a
frame count `F` with `F mod 8 = 1`, `F ≤ sourceLen + 4` and
`F - 4 ≤ sourceLen`; in particular `sourceLen = 17` gives padded
length 21, `F = 17` and usable frame count 13. -/
theorem framePadder_frame_count (n F : ℤ) (l : List ℤ) (h1 : 1 ≤ n)
    (h : framePadderPlan n = Except.ok (F, l)) :
    F % 8 = 1 ∧ F ≤ n + 4 ∧ F - 4 ≤ n ∧
      (n = 17 → n + 4 = 21 ∧ F = 17 ∧ F - 4 = 13) := by
  simp only [framePadderPlan, List.length_append, List.length_map,
    List.length_range, List.length_replicate] at h
  rw [show ((n.toNat + 4 : ℕ) : ℤ) = n + 4 by omega,
    largest_8n1_leq_eq (by omega : (1:ℤ) ≤ n + 4),
    if_neg (by omega)] at h
  simp only [Except.ok.injEq, Prod.mk.injEq] at h
  obtain ⟨hF, -⟩ := h
  subst hF
  omega

/-- C4 (witness): the theorem applied at `sourceLen = 17`. -/
theorem framePadder_frame_count_witness :
    (1:ℤ) ≤ 17 ∧
    framePadderPlan 17 = Except.ok (17,
      [0, 1, 2, 3, 4, 5, 6, 7, 8, 9, 10, 11, 12, 13, 14, 15, 16]) ∧
    ((17:ℤ) % 8 = 1 ∧ (17:ℤ) ≤ 17 + 4 ∧ (17:ℤ) - 4 ≤ 17 ∧
      ((17:ℤ) = 17 → (17:ℤ) + 4 = 21 ∧ (17:ℤ) = 17 ∧ (17:ℤ) - 4 = 13)) :=
  ⟨by norm_num, rfl, framePadder_frame_count 17 17 _ (by norm_num) rfl⟩

/-- C5 (amended): the padding logic never raises
`InsufficientFramesError`: for every `sourceLen`, including 0 and
negative values, the padded index list has length ≥ 4, so the largest
8n+1 value is ≥ 1 and the truncation succeeds.  Non-positive frame
counts are rejected by separate, earlier checks (empty image list,
`total ≤ 0`) that raise different errors. -/
theorem framePadder_never_fails (total : ℤ) :
    ∃ F l, framePadderPlan total = Except.ok (F, l) := by
  simp only [framePadderPlan, List.length_append, List.length_map,
    List.length_range, List.length_replicate]
  have hpos := largest_8n1_leq_pos
    (show (1:ℤ) ≤ ((total.toNat + 4 : ℕ) : ℤ) by omega)
  rw [if_neg (by omega)]
  exact ⟨_, _, rfl⟩

/-- C5 (counterexample to the claim as stated): `sourceLen = 0` does
not raise: the four appended copies of the (nonexistent) last frame
give a padded length of 4, the largest 8n+1 value is 1, and the padder
returns the single index -1. -/
theorem framePadder_zero_succeeds :
    framePadderPlan 0 = Except.ok (1, [-1]) := rfl

/-- C6 (amended): for `originalCount ≥ 1` with
`originalCount mod 8 ∈ {0, 1, 5, 6, 7}` the frame index plan is
`0..originalCount-1` in source order followed by `k ≤ 4` copies of the
last original index `originalCount - 1`, with total length
`F = originalCount + k`.  (When `originalCount mod 8 ∈ {2, 3, 4}` the
plan is instead truncated below `originalCount`: see the
counterexample.) -/
theorem frameIndexPlan_structure (N : ℕ) (h1 : 1 ≤ N)
    (hmod : N % 8 = 0 ∨ N % 8 = 1 ∨ 5 ≤ N % 8) :
    ∃ F : ℤ, ∃ k : ℕ, k ≤ 4 ∧ F = (N : ℤ) + (k : ℤ) ∧
      framePadderPlan (N : ℤ) = Except.ok (F,
        (List.range N).map Int.ofNat ++
          List.replicate k ((N : ℤ) - 1)) := by
  simp only [framePadderPlan, Int.toNat_ofNat, List.length_append,
    List.length_map, List.length_range, List.length_replicate]
  rw [show ((N + 4 : ℕ) : ℤ) = (N : ℤ) + 4 by omega,
    largest_8n1_leq_eq (by omega : (1:ℤ) ≤ (N : ℤ) + 4)]
  set q : ℤ := (((N : ℤ) + 4 - 1) / 8) * 8 + 1 with hq
  have hge : (N : ℤ) ≤ q := by omega
  have hle : q ≤ (N : ℤ) + 4 := by omega
  rw [if_neg (by omega)]
  refine ⟨q, q.toNat - N, by omega, by omega, ?_⟩
  rw [List.take_append_eq_append_take,
    List.take_of_length_le (by simp; omega), List.take_replicate]
  simp only [List.length_map, List.length_range]
  rw [show min (q.toNat - N) 4 = q.toNat - N by omega]

/-- C6 (witness): the amended theorem applied at `originalCount = 5`,
where the plan is `[0, 1, 2, 3, 4]` followed by four copies of the
last index 4. -/
theorem frameIndexPlan_structure_witness :
    1 ≤ (5:ℕ) ∧ ((5:ℕ) % 8 = 0 ∨ (5:ℕ) % 8 = 1 ∨ 5 ≤ (5:ℕ) % 8) ∧
    (∃ F : ℤ, ∃ k : ℕ, k ≤ 4 ∧ F = ((5:ℕ) : ℤ) + (k : ℤ) ∧
      framePadderPlan (((5:ℕ)) : ℤ) = Except.ok (F,
        (List.range (5:ℕ)).map Int.ofNat ++
          List.replicate k (((5:ℕ) : ℤ) - 1))) :=
  ⟨by norm_num, by norm_num, frameIndexPlan_structure 5 (by norm_num) (by norm_num)⟩

/-- C6 (counterexample to the claim as stated): for
`originalCount = 12` the plan is `[0, ..., 8]`: it has only 9 < 12
entries, drops the source frames 9, 10, 11, and its last entry is 8,
not the last original index 11. -/
theorem frameIndexPlan_truncates_counterexample :
    framePadderPlan 12 = Except.ok (9, [0, 1, 2, 3, 4, 5, 6, 7, 8]) ∧
    [(0:ℤ), 1, 2, 3, 4, 5, 6, 7, 8].length = 9 ∧ (9:ℕ) < 12 ∧
    [(0:ℤ), 1, 2, 3, 4, 5, 6, 7, 8].getLast? = some 8 ∧ (8:ℤ) ≠ 11 :=
  ⟨rfl, by decide, by decide, by decide, by decide⟩

/-- C7 (amended): the transform never fails with a `GeometryError` —
the source contains no such check.  Even when the target exceeds the
scaled dimensions (`scaledW < targetW` or `scaledH < targetH`), PIL's
crop pads the out-of-bounds area with the fill value 0 and the output
still has exactly `(targetW, targetH)` dimensions; the far corner then
lies outside the upscaled image and holds the fill value. -/
theorem transform_succeeds_beyond_scaled (img : PILImage)
    (sW sH tW tH : ℕ) (h : sW < tW ∨ sH < tH) :
    (upscale_then_center_crop img sW sH tW tH).width = tW ∧
    (upscale_then_center_crop img sW sH tW tH).height = tH ∧
    (upscale_then_center_crop img sW sH tW tH).px (tW - 1) (tH - 1) =
      (0, 0, 0) := by
  simp only [upscale_then_center_crop, PILImage.crop, PILImage.resize]
  refine ⟨by omega, by omega, ?_⟩
  rw [if_neg (by omega)]

/-- C7 (witness): the amended theorem applied to a 1×1 source frame
with scaled size 1×1 and target size 2×2. -/
theorem transform_succeeds_beyond_scaled_witness :
    ((1:ℕ) < 2 ∨ (1:ℕ) < 2) ∧
    ((upscale_then_center_crop onePixel 1 1 2 2).width = 2 ∧
     (upscale_then_center_crop onePixel 1 1 2 2).height = 2 ∧
     (upscale_then_center_crop onePixel 1 1 2 2).px (2 - 1) (2 - 1) =
       (0, 0, 0)) :=
  ⟨Or.inl (by norm_num),
    transform_succeeds_beyond_scaled onePixel 1 1 2 2 (Or.inl (by norm_num))⟩

/-- C7 (counterexample to the claim as stated): with `targetW = 2 >
scaledW = 1` and `targetH = 2 > scaledH = 1` the transform does not
fail: it returns a well-defined 2×2 image whose top-left pixel carries
the source content and whose out-of-bounds area is fill. -/
theorem transform_no_geometry_error_counterexample :
    (upscale_then_center_crop onePixel 1 1 2 2).width = 2 ∧
    (upscale_then_center_crop onePixel 1 1 2 2).height = 2 ∧
    (upscale_then_center_crop onePixel 1 1 2 2).px 0 0 = (7, 7, 7) ∧
    (upscale_then_center_crop onePixel 1 1 2 2).px 1 1 = (0, 0, 0) := by
  refine ⟨by decide, by decide, by decide, by decide⟩

/-- C8 (confirmed): for every input frame and all scaled/target
dimensions the transform output has spatial dimensions exactly
`(targetH, targetW)`, regardless of aspect ratio or of how scaled
compares to target. -/
theorem transform_output_dims (img : PILImage) (sW sH tW tH : ℕ) :
    (upscale_then_center_crop img sW sH tW tH).height = tH ∧
    (upscale_then_center_crop img sW sH tW tH).width = tW := by
  simp only [upscale_then_center_crop, PILImage.crop, PILImage.resize]
  omega

/-- Looking up positions 0..length-1 with a default reproduces the
list itself. -/
theorem map_getD_range {α : Type} (ps : List α) (d : α) :
    (List.range ps.length).map (fun i => ps.getD i d) = ps := by
  apply List.ext_getElem
  · simp
  · intro i h1 h2
    simp only [List.getElem_map, List.getElem_range,
      List.getD_eq_getElem?_getD, List.getElem?_eq_getElem h2,
      Option.getD_some]

/-- Looking up the final position with a default gives the last
element. -/
theorem getD_last {α : Type} (ps : List α) (hps : ps ≠ []) (d : α) :
    ps.getD (ps.length - 1) d = ps.getLast hps := by
  rw [List.getLast_eq_getElem, List.getD_eq_getElem?_getD,
    List.getElem?_eq_getElem (Nat.sub_lt (List.length_pos.2 hps) Nat.one_pos),
    Option.getD_some]

/-- C9 (confirmed): on sources with the same native width, height and
frame count, the image-directory branch and the video branch of
`prepare_input_tensor` compute the same scale plan and the same padded
frame selection: the directory branch's selected path sequence is
exactly the video branch's padded index sequence looked up in the
path list, and the frame count `F` agrees.  (The fps differs by design:
30 for directories, metadata-derived for videos.) -/
theorem dir_video_branches_agree (w0 h0 : ℤ) (scale : ℚ) (ps : List String)
    (metaFps : Option MetaVal) (hps : ps ≠ []) (hw : 0 < w0) (hh : 0 < h0) :
    ∃ dims F idx,
      prepare_input_tensor_dir w0 h0 scale ps =
        some (dims, idx.map (fun i => ps.getD i.toNat ""), F, 30) ∧
      prepare_input_tensor_video w0 h0 scale (ps.length : ℤ) metaFps =
        some (dims, idx, F, extract_fps metaFps) := by
  obtain ⟨dims, hdims⟩ : ∃ d,
      compute_scaled_and_target_dims w0 h0 scale 2560 1440 128 = some d := by
    simp only [compute_scaled_and_target_dims]
    rw [if_neg (by omega)]
    split <;> exact ⟨_, rfl⟩
  have hN1 : 1 ≤ ps.length := List.length_pos.2 hps
  have hFpos := largest_8n1_leq_pos
    (show (1:ℤ) ≤ ((ps.length + 4 : ℕ) : ℤ) by omega)
  have hpad : framePadderPlan (ps.length : ℤ) = Except.ok
      (largest_8n1_leq ((ps.length + 4 : ℕ) : ℤ),
       ((List.range ps.length).map Int.ofNat ++
         List.replicate 4 ((ps.length : ℤ) - 1)).take
         (largest_8n1_leq ((ps.length + 4 : ℕ) : ℤ)).toNat) := by
    simp only [framePadderPlan, Int.toNat_ofNat, List.length_append,
      List.length_map, List.length_range, List.length_replicate]
    rw [if_neg (by omega)]
  have hdir : prepare_input_tensor_dir w0 h0 scale ps =
      some (dims, (ps ++ List.replicate 4 (ps.getLast hps)).take
        (largest_8n1_leq ((ps.length + 4 : ℕ) : ℤ)).toNat,
        largest_8n1_leq ((ps.length + 4 : ℕ) : ℤ), 30) := by
    simp only [prepare_input_tensor_dir]
    rw [dif_neg hps, hdims]
    simp only [List.length_append, List.length_replicate]
    rw [if_neg (by omega)]
  have hvid : prepare_input_tensor_video w0 h0 scale (ps.length : ℤ) metaFps =
      some (dims, ((List.range ps.length).map Int.ofNat ++
        List.replicate 4 ((ps.length : ℤ) - 1)).take
        (largest_8n1_leq ((ps.length + 4 : ℕ) : ℤ)).toNat,
        largest_8n1_leq ((ps.length + 4 : ℕ) : ℤ), extract_fps metaFps) := by
    simp only [prepare_input_tensor_video]
    rw [if_neg (by omega), hdims, hpad]
  have hcomp : ((fun i : ℤ => ps.getD i.toNat "") ∘ Int.ofNat) =
      fun i : ℕ => ps.getD i "" := by
    funext i
    simp
  have hsel : (((List.range ps.length).map Int.ofNat ++
      List.replicate 4 ((ps.length : ℤ) - 1)).take
        (largest_8n1_leq ((ps.length + 4 : ℕ) : ℤ)).toNat).map
        (fun i => ps.getD i.toNat "") =
      (ps ++ List.replicate 4 (ps.getLast hps)).take
        (largest_8n1_leq ((ps.length + 4 : ℕ) : ℤ)).toNat := by
    rw [List.map_take, List.map_append, List.map_map, List.map_replicate,
      hcomp, map_getD_range]
    have h2 : ps.getD ((ps.length : ℤ) - 1).toNat "" = ps.getLast hps := by
      rw [show ((ps.length : ℤ) - 1).toNat = ps.length - 1 by omega]
      exact getD_last ps hps ""
    rw [h2]
  exact ⟨dims, _, _, by rw [hdir, hsel], hvid⟩

/-- C9 (witness): the theorem applied to a three-frame source of size
2×3 with no fps metadata. -/
theorem dir_video_branches_agree_witness :
    (["a", "b", "c"] : List String) ≠ [] ∧ (0:ℤ) < 2 ∧ (0:ℤ) < 3 ∧
    (∃ dims F idx,
      prepare_input_tensor_dir 2 3 4 ["a", "b", "c"] =
        some (dims, idx.map
          (fun i => List.getD ["a", "b", "c"] i.toNat ""), F, 30) ∧
      prepare_input_tensor_video 2 3 4
          ((List.length ["a", "b", "c"] : ℕ) : ℤ) none =
        some (dims, idx, F, extract_fps none)) :=
  ⟨List.cons_ne_nil _ _, by norm_num, by norm_num,
    dir_video_branches_agree 2 3 4 ["a", "b", "c"] none
      (List.cons_ne_nil _ _) (by norm_num) (by norm_num)⟩

/-- C10 (confirmed): the returned frame rate is the integer rounding
of the numeric fps metadata value when one is present, and 30 when the
fps metadata is absent or non-numeric; since the result is an integer,
a fractional frame rate such as 29.97 is rounded to 30 and never
propagated exactly. -/
theorem video_fps_integer_rounding :
    (∀ q : ℚ, extract_fps (some (MetaVal.num q)) = pythonRound q) ∧
    extract_fps none = 30 ∧
    extract_fps (some MetaVal.other) = 30 ∧
    extract_fps (some (MetaVal.num (2997/100))) = 30 ∧
    (2997/100 : ℚ) ≠ 30 := by
  refine ⟨fun q => rfl, ?_, rfl, ?_, by norm_num⟩
  · show pythonRound (30 : ℚ) = 30
    simp only [pythonRound]
    norm_num [Int.fdiv_eq_ediv]
  · show pythonRound (2997/100 : ℚ) = 30
    simp only [pythonRound]
    norm_num [Int.fdiv_eq_ediv]

end FlashVSR
